import Mathlib

set_option maxHeartbeats 1000000

/-!
Shallow embedding of the KaaryaaIDP extraction pipeline (src/main.py).

Python regular expressions are compiled by hand into executable scanners
over character lists, preserving leftmost-match order, alternation order,
greedy and lazy repetition, and lookaround behaviour of the concrete
patterns that appear in the source. Python truthiness of optional strings
is modelled by pyTruthyS. Extractors that would raise a TypeError when
the OCR content is None (re.search on None) return Except String.
-/

-- ### character classes (ASCII reading of the Python re classes)

def pyWS (c : Char) : Bool :=
  c == ' ' || c == '\t' || c == '\n' || c == '\r' || c == '\x0b' || c == '\x0c'

def isAZ (c : Char) : Bool := 'A' ≤ c && c ≤ 'Z'

def isaz (c : Char) : Bool := 'a' ≤ c && c ≤ 'z'

def isAlphaB (c : Char) : Bool := isAZ c || isaz c

def isDigitB (c : Char) : Bool := '0' ≤ c && c ≤ '9'

def isAZ09 (c : Char) : Bool := isAZ c || isDigitB c

def isWordC (c : Char) : Bool := isAlphaB c || isDigitB c || c == '_'

def digitOrComma (c : Char) : Bool := isDigitB c || c == ','

-- ### substring primitives (Python `in`, str.lower, whitespace collapse)

def startsWithL : List Char → List Char → Bool
  | [], _ => true
  | _ :: _, [] => false
  | p :: ps, c :: cs => p == c && startsWithL ps cs

def containsL (p : List Char) : List Char → Bool
  | [] => startsWithL p []
  | c :: cs => startsWithL p (c :: cs) || containsL p cs

/-- Python `pat in s` (contiguous substring test). -/
def substrB (pat s : String) : Bool := containsL pat.toList s.toList

/-- Python str.upper / str.lower (ASCII case mapping, per character);
kernel-reducible list-based versions. -/
def toUpperS (s : String) : String := String.mk (s.toList.map Char.toUpper)

def toLowerS (s : String) : String := String.mk (s.toList.map Char.toLower)

/-- Python str.strip(): remove leading and trailing whitespace. -/
def trimL (l : List Char) : List Char :=
  ((l.dropWhile pyWS).reverse.dropWhile pyWS).reverse

def trimS (s : String) : String := String.mk (trimL s.toList)

/-- Python `s.replace(" ", "")`. -/
def removeSpaces (s : String) : String := String.mk (s.toList.filter (fun c => !(c == ' ')))

/-- Python `pat.lower() in s.lower()`. -/
def substrIB (pat s : String) : Bool := substrB (toLowerS pat) (toLowerS s)

/-- Case-insensitive literal prefix test (IGNORECASE literal matching). -/
def ciStarts : List Char → List Char → Bool
  | [], _ => true
  | _ :: _, [] => false
  | p :: ps, c :: cs => p.toLower == c.toLower && ciStarts ps cs

/-- Embedding of `re.sub(r'\s+', ' ', _)`: each maximal whitespace run
becomes a single space. Structural recursion on a fuel bounded by the
input length (every step consumes at least one character), so the
function reduces inside the kernel. -/
def collapseWSF : Nat → List Char → List Char
  | _, [] => []
  | 0, _ :: _ => []
  | fuel + 1, c :: cs =>
    if pyWS c then ' ' :: collapseWSF fuel (cs.dropWhile pyWS)
    else c :: collapseWSF fuel cs

def collapseWS (l : List Char) : List Char := collapseWSF l.length l

/-- Python truthiness of an optional string (None and "" are falsy). -/
def pyTruthyS : Option String → Bool
  | none => false
  | some s => !(s == "")


-- ### generic scanners used to embed the concrete regexes

/-- Match a fixed sequence of character classes at the head of the input,
returning the matched characters. -/
def matchClasses : List (Char → Bool) → List Char → Option (List Char)
  | [], _ => some []
  | _ :: _, [] => none
  | p :: ps, c :: cs => if p c then (matchClasses ps cs).map (c :: ·) else none

/-- Leftmost-match search: try the matcher at every suffix, left to right
(re.search semantics for the hand-compiled patterns). -/
def scanFirst (f : List Char → Option α) : List Char → Option α
  | [] => f []
  | c :: cs =>
    match f (c :: cs) with
    | some r => some r
    | none => scanFirst f cs

/-- First non-none value of `f` over a list (first successful strategy wins). -/
def firstSome (f : α → Option β) : List α → Option β
  | [] => none
  | a :: as =>
    match f a with
    | some b => some b
    | none => firstSome f as

/-- First element satisfying a boolean predicate. -/
def findFirst (p : α → Bool) : List α → Option α
  | [] => none
  | a :: as => if p a then some a else findFirst p as

def allB (p : α → Bool) : List α → Bool
  | [] => true
  | a :: as => p a && allB p as

-- ### data model (§3 of the spec; the AnalyzeResult shape consumed by main.py)

structure DocFields where
  documentNumber : Option String
  firstName : Option String
  lastName : Option String
  address : Option String
  dateOfBirth : Option String
deriving DecidableEq

structure PyDoc where
  fields : DocFields
  confidence : Rat
deriving DecidableEq

structure TableCell where
  rowIndex : Nat
  columnIndex : Nat
  content : String
deriving DecidableEq

structure PyTable where
  rowCount : Nat
  cells : List TableCell
deriving DecidableEq

structure PyPage where
  lines : List String
deriving DecidableEq

structure AnalyzeResult where
  content : Option String
  pages : List PyPage
  documents : List PyDoc
  tables : List PyTable
deriving DecidableEq

inductive DocType where
  | auto | pan | aadhaar | cheque | form16 | itrv
deriving DecidableEq

structure IdentityResponse where
  document_type : String
  id_number : Option String
  full_name : Option String
  gender : Option String
  date_of_birth : Option String
  address : Option String
  ifsc_code : Option String
  micr_code : Option String
  bank_name : Option String
  employer_name : Option String
  assessment_year : Option String
  gross_income : Option String
  tax_paid : Option String
  confidence_score : Rat
  validation_status : String
  warnings : List String
deriving DecidableEq

/-- `result.content or ""`. -/
def contentD (r : AnalyzeResult) : String := r.content.getD ""

/-- The flattened page lines (`all_lines` in refine_name_using_anchor and
process_form16). -/
def allLines (r : AnalyzeResult) : List String :=
  r.pages.foldr (fun p acc => p.lines ++ acc) []

-- ### cheque helpers (extract_ifsc, extract_account_number)

/-- The structural IFSC pattern `[A-Z]{4}0[A-Z0-9]{6}` as character classes. -/
def ifscClasses : List (Char → Bool) :=
  [isAZ, isAZ, isAZ, isAZ, (· == '0'), isAZ09, isAZ09, isAZ09, isAZ09, isAZ09, isAZ09]

/-- `re.search(r"[A-Z]{4}0[A-Z0-9]{6}", text)` (case-sensitive). -/
def extract_ifsc (text : String) : Option String :=
  scanFirst (fun cs => (matchClasses ifscClasses cs).map (fun l => String.mk l)) text.toList

/-- The PAN pattern `[A-Z]{5}[0-9]{4}[A-Z]{1}` (used by process_itrv). -/
def panClasses : List (Char → Bool) :=
  [isAZ, isAZ, isAZ, isAZ, isAZ, isDigitB, isDigitB, isDigitB, isDigitB, isAZ]

def panSearch (text : String) : Option String :=
  scanFirst (fun cs => (matchClasses panClasses cs).map (fun l => String.mk l)) text.toList

/-- Digits of the capture group `(\d{9,18})`: a greedy digit run capped at
18, requiring at least 9 digits (no trailing lookahead in the source). -/
def digits9to18 (cs : List Char) : Option (List Char) :=
  let ds := cs.takeWhile isDigitB
  if 9 ≤ ds.length then some (ds.take 18) else none

/-- Continuation of the labeled-account pattern after the label:
`\s*(?:No|Number)?\.?\s*[:\-]?\s*(\d{9,18})`; alternation (No before
Number before empty) is tried with full backtracking as in Python re. -/
def labeledTail (cs : List Char) : Option (List Char) :=
  let rest1 := cs.dropWhile pyWS
  let afterNo : List Char → Option (List Char) := fun l =>
    let l1 := if startsWithL ['.'] l then l.drop 1 else l
    let l2 := l1.dropWhile pyWS
    let l3 := if startsWithL [':'] l2 || startsWithL ['-'] l2 then l2.drop 1 else l2
    digits9to18 (l3.dropWhile pyWS)
  match (if ciStarts ['n', 'o'] rest1 then afterNo (rest1.drop 2) else none) with
  | some g => some g
  | none =>
    match (if ciStarts "number".toList rest1 then afterNo (rest1.drop 6) else none) with
    | some g => some g
    | none => afterNo rest1

/-- One attempt of the labeled-account regex at the current position:
`(?:A/c|Account|Acc)` tried in alternation order, each with the full
continuation (backtracking across alternatives). -/
def labeledAt (cs : List Char) : Option (List Char) :=
  match (if ciStarts "a/c".toList cs then labeledTail (cs.drop 3) else none) with
  | some g => some g
  | none =>
    match (if ciStarts "account".toList cs then labeledTail (cs.drop 7) else none) with
    | some g => some g
    | none => if ciStarts "acc".toList cs then labeledTail (cs.drop 3) else none

/-- `re.search(r"(?:A/c|Account|Acc)\s*(?:No|Number)?\.?\s*[:\-]?\s*(\d{9,18})",
text, re.IGNORECASE)`, returning group(1). -/
def labeledAccount (cs : List Char) : Option String :=
  (scanFirst labeledAt cs).map (fun l => String.mk l)

/-- Maximal contiguous digit runs of the text, in order. -/
def maxRunsF : Nat → List Char → List (List Char)
  | _, [] => []
  | 0, _ :: _ => []
  | fuel + 1, c :: cs =>
    if isDigitB c then (c :: cs.takeWhile isDigitB) :: maxRunsF fuel (cs.dropWhile isDigitB)
    else maxRunsF fuel cs

def maxRuns (l : List Char) : List (List Char) := maxRunsF l.length l

/-- `re.findall(r"(?<!\d)\d{10,18}(?!\d)", text)`: scan left to right with
the lookbehind tracked as a flag; at a fresh run, the greedy counted
repetition with trailing lookahead succeeds exactly when the maximal run
has length 10..18, and then consumes the whole run. -/
def scanLongF : Nat → Bool → List Char → List String
  | _, _, [] => []
  | 0, _, _ :: _ => []
  | fuel + 1, prevD, c :: cs =>
    if isDigitB c then
      if prevD then scanLongF fuel true cs
      else
        let run := c :: cs.takeWhile isDigitB
        if 10 ≤ run.length ∧ run.length ≤ 18 then
          String.mk run :: scanLongF fuel true (cs.dropWhile isDigitB)
        else scanLongF fuel true cs
    else scanLongF fuel false cs

def scanLong (prevD : Bool) (l : List Char) : List String := scanLongF l.length prevD l

/-- Python `max(iterable, key=len)` keeps the first element and replaces it
only on strictly greater length, so the first longest element wins. -/
def pyMax1 (cur : String) : List String → String
  | [] => cur
  | s :: rest => pyMax1 (if s.length > cur.length then s else cur) rest

def pyMaxByLen : List String → Option String
  | [] => none
  | s :: rest => some (pyMax1 s rest)

/-- src/main.py lines 89-93 (extract_account_number). -/
def extract_account_number (text : String) : Option String :=
  match labeledAccount text.toList with
  | some g => some g
  | none => pyMaxByLen (scanLong false text.toList)

-- ### gender fallback (extract_gender_fallback, lines 53-56)

/-- Word-boundary-delimited case-insensitive word match at the head,
returning the original matched characters. -/
def genderWordAt (cs : List Char) (w : String) : Option (List Char) :=
  if ciStarts w.toList cs then
    let m := cs.take w.length
    let rest := cs.drop w.length
    if (match rest with | [] => true | d :: _ => !isWordC d) then some m else none
  else none

def genderAt (prev : Option Char) (cs : List Char) : Option (List Char) :=
  let bOK := match prev with | none => true | some p => !isWordC p
  if bOK then
    match genderWordAt cs "MALE" with
    | some m => some m
    | none =>
      match genderWordAt cs "FEMALE" with
      | some m => some m
      | none => genderWordAt cs "TRANSGENDER"
  else none

def genderScan : Option Char → List Char → Option (List Char)
  | _, [] => none
  | prev, c :: cs =>
    match genderAt prev (c :: cs) with
    | some m => some m
    | none => genderScan (some c) cs

/-- `re.search(r"\b(MALE|FEMALE|TRANSGENDER)\b", full_text, re.IGNORECASE)`,
returning group(1).upper(). (The three alternatives start with distinct
letters, so alternation order cannot matter at a fixed position.) -/
def extract_gender_fallback (full_text : String) : Option String :=
  (genderScan none full_text.toList).map (fun m => toUpperS (String.mk m))

-- ### classifier (the AUTO branch of the router, lines 277-283)

def classifyAuto (content : Option String) : DocType :=
  let cu := toUpperS (content.getD "")
  if substrB "FORM 16" cu then DocType.form16
  else if substrB "ITR-V" cu then DocType.itrv
  else if substrB "PAY " cu && substrB "RUPEES" cu then DocType.cheque
  else if substrB "INCOME TAX DEPARTMENT" cu then DocType.pan
  else DocType.aadhaar

-- ### simple processors (process_cheque, process_pan)

/-- src/main.py lines 251-255; `result.content` is passed to re.search, so
absent content raises a TypeError. -/
def process_cheque (r : AnalyzeResult) : Except String IdentityResponse :=
  match r.content with
  | none => Except.error "TypeError"
  | some content =>
    Except.ok
      { document_type := "CHEQUE"
        id_number := extract_account_number content
        full_name := none
        gender := none
        date_of_birth := none
        address := none
        ifsc_code := extract_ifsc content
        micr_code := none
        bank_name := none
        employer_name := none
        assessment_year := none
        gross_income := none
        tax_paid := none
        confidence_score := 0.85
        validation_status := "VALID"
        warnings := [] }

/-- src/main.py lines 242-249; when a document instance exists, the gender
fallback runs on `result.content` and raises on absent content. -/
def process_pan (r : AnalyzeResult) : Except String IdentityResponse :=
  match r.documents with
  | [] =>
    Except.ok
      { document_type := "UNKNOWN"
        id_number := none, full_name := none, gender := none
        date_of_birth := none, address := none
        ifsc_code := none, micr_code := none, bank_name := none
        employer_name := none, assessment_year := none
        gross_income := none, tax_paid := none
        confidence_score := 0
        validation_status := "INVALID"
        warnings := [] }
  | doc :: _ =>
    match r.content with
    | none => Except.error "TypeError"
    | some c =>
      Except.ok
        { document_type := "PAN_CARD"
          id_number := doc.fields.documentNumber
          full_name := some (trimS ((doc.fields.firstName.getD "") ++ " " ++ (doc.fields.lastName.getD "")))
          gender := extract_gender_fallback c
          date_of_birth := doc.fields.dateOfBirth
          address := none
          ifsc_code := none, micr_code := none, bank_name := none
          employer_name := none, assessment_year := none
          gross_income := none, tax_paid := none
          confidence_score := doc.confidence
          validation_status := "VALID"
          warnings := [] }

/-- Projection used to state facts about extractor outputs. -/
def okRec : Except String IdentityResponse → Option IdentityResponse
  | Except.ok r => some r
  | Except.error _ => none

-- ### substitution scanner (re.sub with a hand-compiled pattern)

/-- Remove every match of a pattern whose matcher returns the consumed
length; re.sub scanning resumes after each replacement. A reported length
of 0 is treated as no match (the embedded patterns always consume at
least their literal head, so that branch is unreachable). -/
def subScanF (f : List Char → Option Nat) : Nat → List Char → List Char
  | _, [] => []
  | 0, l => l
  | fuel + 1, c :: cs =>
    match f (c :: cs) with
    | some n =>
      if n = 0 then c :: subScanF f fuel cs
      else subScanF f fuel ((c :: cs).drop n)
    | none => c :: subScanF f fuel cs

def subScan (f : List Char → Option Nat) (l : List Char) : List Char := subScanF f l.length l

-- ### address fallback (extract_address_fallback, lines 58-70)

def colonDashWS (c : Char) : Bool := c == ':' || c == '-' || pyWS c

/-- Matcher for `Print Date\s*[:\-]?\s*\d{2}/\d{2}/\d{4},?` (IGNORECASE),
returning the consumed length. -/
def printDateAt (cs : List Char) : Option Nat :=
  if ciStarts "print date".toList cs then
    let r1 := (cs.drop 10).dropWhile pyWS
    let r2 := if startsWithL [':'] r1 || startsWithL ['-'] r1 then r1.drop 1 else r1
    let r3 := r2.dropWhile pyWS
    match matchClasses [isDigitB, isDigitB, (· == '/'), isDigitB, isDigitB, (· == '/'),
        isDigitB, isDigitB, isDigitB, isDigitB] r3 with
    | some _ =>
      let r4 := r3.drop 10
      let r5 := if startsWithL [','] r4 then r4.drop 1 else r4
      some (cs.length - r5.length)
    | none => none
  else none

/-- Lazy `([\s\S]*?)(\d{6})`: the earliest window of six consecutive
digits, together with the characters before it. -/
def splitAt6 : List Char → Option (List Char × List Char)
  | [] => none
  | c :: cs =>
    if ((c :: cs).take 6).length == 6 && ((c :: cs).take 6).all isDigitB then
      some ([], (c :: cs).take 6)
    else (splitAt6 cs).map (fun pr => (c :: pr.1, pr.2))

/-- One attempt of `(?:Address|To|Address:|To:)\s*([\s\S]*?)(\d{6})` at the
current position; alternatives in order, each with the full continuation. -/
def addressAt (cs : List Char) : Option (List Char × List Char) :=
  let cont : Nat → Option (List Char × List Char) := fun k =>
    splitAt6 ((cs.drop k).dropWhile pyWS)
  match (if ciStarts "address".toList cs then cont 7 else none) with
  | some pr => some pr
  | none =>
    match (if ciStarts "to".toList cs then cont 2 else none) with
    | some pr => some pr
    | none =>
      match (if ciStarts "address:".toList cs then cont 8 else none) with
      | some pr => some pr
      | none => if ciStarts "to:".toList cs then cont 3 else none

/-- src/main.py lines 58-70. The try/except swallows the TypeError raised
when full_text is None, so absent content degrades to None. -/
def extract_address_fallback (full_text : Option String) : Option String :=
  match full_text with
  | none => none
  | some t =>
    match scanFirst addressAt t.toList with
    | none => none
    | some (g1, six) =>
      let raw := trimS (String.mk g1)
      let c1 := subScan printDateAt raw.toList
      let c2 := c1.dropWhile colonDashWS
      let c3 := trimS (String.mk (collapseWS c2))
      some (c3 ++ ", " ++ String.mk six)

-- ### anchor refiner (refine_name_using_anchor, lines 72-82)

def apos : Char := Char.ofNat 39

/-- The pattern literal `Father's Name` (the apostrophe written via its
code point to keep the file ASCII-clean). -/
def fatherPat : List Char := "father".toList ++ [apos] ++ "s name".toList

/-- Matcher for `(Name|Father's Name)[:\-\s]*` (IGNORECASE), returning the
consumed length; `Name` is the first alternative. -/
def nameNoiseAt (cs : List Char) : Option Nat :=
  if ciStarts "name".toList cs then
    some (cs.length - ((cs.drop 4).dropWhile colonDashWS).length)
  else if ciStarts fatherPat cs then
    some (cs.length - ((cs.drop 13).dropWhile colonDashWS).length)
  else none

/-- `re.sub(r"(Name|Father's Name)[:\-\s]*", "", s, flags=re.IGNORECASE)`. -/
def nameNoiseSub (s : String) : String := String.mk (subScan nameNoiseAt s.toList)

/-- The enumerate loop of refine_name_using_anchor: at a marker line the
candidate is `all_lines[i-1].strip()`, where Python index -1 (for i = 0)
denotes the last line. -/
def refineLoopF (ls : List String) (pn : String) : Nat → Nat → String
  | 0, _ => pn
  | fuel + 1, i =>
    if i < ls.length then
      let line := ls.getD i ""
      if substrB "DOB" line || substrB "Year of Birth" line then
        let candidate := trimS (ls.getD (if i == 0 then ls.length - 1 else i - 1) "")
        if substrIB pn candidate then candidate else refineLoopF ls pn fuel (i + 1)
      else refineLoopF ls pn fuel (i + 1)
    else pn

/-- src/main.py lines 72-82. -/
def refine_name_using_anchor (r : AnalyzeResult) (pn : String) : String :=
  refineLoopF (allLines r) pn (allLines r).length 0

-- ### AADHAAR processor (process_aadhaar, lines 220-240)

structure AMerged where
  id : Option String
  name : Option String
  dob : Option String
  addr : Option String
  conf : List Rat
deriving DecidableEq

/-- One iteration of the merge loop; each field keeps the value already
held unless it is Python-falsy (None or ""), mirroring the `if ... and not
merged[...]` guards. The confidence is appended to a list that the source
never reads again. -/
def aadhaarStep (m : AMerged) (d : PyDoc) : AMerged :=
  { id := if d.fields.documentNumber.isSome && !pyTruthyS m.id then d.fields.documentNumber else m.id
    name :=
      if !pyTruthyS m.name then
        some (trimS ((d.fields.firstName.getD "") ++ " " ++ (d.fields.lastName.getD "")))
      else m.name
    addr := if d.fields.address.isSome && !pyTruthyS m.addr then d.fields.address else m.addr
    dob := if d.fields.dateOfBirth.isSome && !pyTruthyS m.dob then d.fields.dateOfBirth else m.dob
    conf := m.conf ++ [d.confidence] }

def aadhaarMerge (docs : List PyDoc) : AMerged :=
  docs.foldl aadhaarStep { id := none, name := none, dob := none, addr := none, conf := [] }

/-- Line 239: the only warning process_aadhaar can emit. The check is on
the character count of the id with spaces removed. -/
def aadhaarWarnings (mid : Option String) : List String :=
  if pyTruthyS mid && (removeSpaces (mid.getD "")).length != 12 then
    ["Invalid Aadhaar Length"]
  else []

/-- src/main.py lines 220-240. The gender fallback runs on
`result.content` unguarded, so absent content raises a TypeError; the
confidence score is the constant 0.8 (the collected per-instance
confidences are never used). -/
def process_aadhaar (r : AnalyzeResult) : Except String IdentityResponse :=
  let m := aadhaarMerge r.documents
  let name :=
    if pyTruthyS m.name then
      some (trimS (nameNoiseSub (refine_name_using_anchor r (m.name.getD ""))))
    else m.name
  let addr :=
    if !pyTruthyS m.addr then
      match extract_address_fallback r.content with
      | some a => if a == "" then m.addr else some a
      | none => m.addr
    else m.addr
  let w := aadhaarWarnings m.id
  match r.content with
  | none => Except.error "TypeError"
  | some c =>
    Except.ok
      { document_type := "AADHAAR"
        id_number := m.id
        full_name := name
        gender := extract_gender_fallback c
        date_of_birth := m.dob
        address := addr
        ifsc_code := none, micr_code := none, bank_name := none
        employer_name := none, assessment_year := none
        gross_income := none, tax_paid := none
        confidence_score := 0.8
        validation_status := if w == [] then "VALID" else "REVIEW_NEEDED"
        warnings := w }

-- ### assessment year (shared pattern of process_form16 and process_itrv)

/-- One attempt of `Assessment\s*Year\s*[:\-]?\s*(\d{4}-\d{2})`
(IGNORECASE) at the current position, returning group(1). -/
def ayAt (cs : List Char) : Option (List Char) :=
  if ciStarts "assessment".toList cs then
    let r1 := (cs.drop 10).dropWhile pyWS
    if ciStarts "year".toList r1 then
      let r2 := (r1.drop 4).dropWhile pyWS
      let r3 := if startsWithL [':'] r2 || startsWithL ['-'] r2 then r2.drop 1 else r2
      let r4 := r3.dropWhile pyWS
      matchClasses [isDigitB, isDigitB, isDigitB, isDigitB, (· == '-'), isDigitB, isDigitB] r4
    else none
  else none

def assessYear (t : String) : Option String :=
  (scanFirst ayAt t.toList).map (fun l => String.mk l)

-- ### numeric parsing shared by the Form 16 strategies

/-- Decompose a character list as `^\d+(\.\d{1,2})?$`: a nonempty digit
run, optionally followed by a dot and exactly one or two digits, with
nothing after (the shape accepted by `re.match` on the stripped value). -/
def numOKparts (cs : List Char) : Option (List Char × List Char) :=
  let ds := cs.takeWhile isDigitB
  if ds.length = 0 then none
  else
    match cs.drop ds.length with
    | [] => some (ds, [])
    | '.' :: fs =>
      if 1 ≤ fs.length && fs.length ≤ 2 && fs.all isDigitB then some (ds, fs) else none
    | _ => none

def digitsToNat (ds : List Char) : Nat := ds.foldl (fun n c => n * 10 + (c.toNat - 48)) 0

/-- The parsed value scaled by 100 (so that Python float comparisons with
the integer thresholds become exact Nat comparisons). -/
def hundredthsOf (pr : List Char × List Char) : Nat :=
  digitsToNat pr.1 * 100 +
    (match pr.2 with
     | [] => 0
     | [a] => (a.toNat - 48) * 10
     | [a, b] => (a.toNat - 48) * 10 + (b.toNat - 48)
     | _ => 0)

/-- `re.sub(r"[^\d\.]", "", s)`. -/
def stripND (s : String) : List Char := s.toList.filter (fun c => isDigitB c || c == '.')

/-- Lines 154-156: the stripped cell value matches `^\d+(\.\d{1,2})?$` and
`float(val) > 5000`. -/
def cellQualifies (s : String) : Bool :=
  match numOKparts (stripND s) with
  | some pr => decide (500000 < hundredthsOf pr)
  | none => false

-- ### Form 16 strategy A: table lookup (lines 126-161)

/-- Stable insertion sort of a row's cells by column index (Python
`sort(key=lambda x: x.column_index)`). -/
def insertCell (c : TableCell) : List TableCell → List TableCell
  | [] => [c]
  | d :: ds => if c.columnIndex ≤ d.columnIndex then c :: d :: ds else d :: insertCell c ds

def sortCells : List TableCell → List TableCell
  | [] => []
  | c :: cs => insertCell c (sortCells cs)

/-- Normalisation applied to a cell before keyword matching:
`re.sub(r'\s+', ' ', content).strip().lower()`. -/
def cleanCellText (s : String) : String := toLowerS (trimS (String.mk (collapseWS s.toList)))

def f16Keywords : List String :=
  ["taxable income", "gross salary", "net salary", "salary received",
   "total amount of salary", "amount paid", "amount credited"]

def kwMatch (s : String) : Bool := f16Keywords.any (fun k => substrB k (cleanCellText s))

/-- Scan the cells of one row right-to-left (sorted by column index, then
reversed) for the first cell whose stripped content parses as a number
above the plausibility threshold; the original cell text is returned. -/
def rowScan (t : PyTable) (ri : Nat) : Option String :=
  firstSome (fun c => if cellQualifies c.content then some c.content else none)
    (sortCells (t.cells.filter (fun c => c.rowIndex == ri))).reverse

/-- Lines 126-161: first keyword-matching cell (tables in order, cells in
order) whose row yields a qualifying number wins. -/
def form16_tableLookup (tables : List PyTable) : Option String :=
  firstSome
    (fun t =>
      firstSome (fun cell => if kwMatch cell.content then rowScan t cell.rowIndex else none)
        t.cells)
    tables

-- ### Form 16 strategy B: bulldozer regex (lines 163-170)

/-- `w1\s+w2` (IGNORECASE) at the head, returning the consumed length. -/
def kw2At (w1 w2 : String) (cs : List Char) : Option Nat :=
  if ciStarts w1.toList cs then
    let r1 := cs.drop w1.length
    let ws := r1.takeWhile pyWS
    if 1 ≤ ws.length && ciStarts w2.toList (r1.drop ws.length) then
      some (w1.length + ws.length + w2.length)
    else none
  else none

/-- `w1\s*w2\s*w3` (IGNORECASE) at the head, returning the consumed length. -/
def kw3At (w1 w2 w3 : String) (cs : List Char) : Option Nat :=
  if ciStarts w1.toList cs then
    let r1 := cs.drop w1.length
    let r2 := r1.drop (r1.takeWhile pyWS).length
    if ciStarts w2.toList r2 then
      let r3 := r2.drop w2.length
      let r4 := r3.drop (r3.takeWhile pyWS).length
      if ciStarts w3.toList r4 then some (cs.length - (r4.drop w3.length).length) else none
    else none
  else none

/-- The capture `(\d[\d,]+(?:\.\d{1,2})?)` at the head: a digit, a
nonempty greedy run of digits and commas, and an optional greedy decimal
part of one or two digits. -/
def numBulldozer : List Char → Option (List Char)
  | [] => none
  | c :: rest =>
    if isDigitB c then
      let run := rest.takeWhile digitOrComma
      if 1 ≤ run.length then
        let frac :=
          match rest.drop run.length with
          | '.' :: a :: b :: _ =>
            if isDigitB a then (if isDigitB b then ['.', a, b] else ['.', a]) else []
          | ['.', a] => if isDigitB a then ['.', a] else []
          | _ => []
        some (c :: run ++ frac)
      else none
    else none

/-- Lazy bounded gap `[\s\S]{0,bound}?` followed by the given matcher: the
matcher is tried at offsets 0, 1, ... up to the bound, nearest first. -/
def gapSearch (p : List Char → Option (List Char)) : Nat → List Char → Option (List Char)
  | _, [] => p []
  | bound, c :: cs =>
    match p (c :: cs) with
    | some r => some r
    | none =>
      match bound with
      | 0 => none
      | b + 1 => gapSearch p b cs

/-- One attempt of the bulldozer pattern at the current position. The four
label alternatives start with distinct words, so at most one can match at
a given position and alternation order is immaterial. -/
def bulldozerAt (cs : List Char) : Option (List Char) :=
  match kw2At "taxable" "income" cs with
  | some n => gapSearch numBulldozer 300 (cs.drop n)
  | none =>
    match kw2At "gross" "salary" cs with
    | some n => gapSearch numBulldozer 300 (cs.drop n)
    | none =>
      match kw2At "net" "salary" cs with
      | some n => gapSearch numBulldozer 300 (cs.drop n)
      | none =>
        match kw2At "amount" "paid" cs with
        | some n => gapSearch numBulldozer 300 (cs.drop n)
        | none => none

/-- Lines 164-170. -/
def bulldozer (t : String) : Option String :=
  (scanFirst bulldozerAt t.toList).map (fun l => String.mk l)

-- ### Form 16 strategy C: max number heuristic (lines 172-190)

/-- All matches of the greedy repetition `(?:,\d{2,3})*` at the head, in
backtracking preference order: another repetition before stopping, and
three digits before two within a repetition. -/
def grpParsesF : Nat → List Char → List (List Char)
  | 0, _ => [[]]
  | fuel + 1, l =>
    match l with
    | ',' :: rest =>
      let ds := rest.takeWhile isDigitB
      (if 3 ≤ ds.length then (grpParsesF fuel (rest.drop 3)).map (fun t => ',' :: rest.take 3 ++ t) else [])
        ++ (if 2 ≤ ds.length then (grpParsesF fuel (rest.drop 2)).map (fun t => ',' :: rest.take 2 ++ t) else [])
        ++ [[]]
    | _ => [[]]

def grpParses (l : List Char) : List (List Char) := grpParsesF l.length l

/-- The matches of `(?:\.\d{2})?` at the head, in preference order. -/
def decParses : List Char → List (List Char)
  | '.' :: a :: b :: _ => if isDigitB a && isDigitB b then [['.', a, b], []] else [[]]
  | _ => [[]]

/-- All parses of `\d{1,3}(?:,\d{2,3})*(?:\.\d{2})?` at the head in
backtracking preference order (greedy integer part first). -/
def numCandsAt (cs : List Char) : List (List Char) :=
  let ds := cs.takeWhile isDigitB
  ((if 3 ≤ ds.length then [3] else []) ++ (if 2 ≤ ds.length then [2] else [])
      ++ (if 1 ≤ ds.length then [1] else [])).flatMap
    (fun k =>
      (grpParses (cs.drop k)).flatMap
        (fun g => (decParses ((cs.drop k).drop g.length)).map (fun d => cs.take k ++ g ++ d)))

/-- The trailing `\b` of the number pattern. -/
def boundaryAfter (cs m : List Char) : Bool :=
  match cs.drop m.length with
  | [] => true
  | d :: _ => !isWordC d

/-- First parse whose end sits on a word boundary (the regex engine's
backtracking order). -/
def firstNumMatch (cs : List Char) : Option (List Char) :=
  findFirst (fun m => boundaryAfter cs m) (numCandsAt cs)

/-- `re.findall(r"\b\d{1,3}(?:,\d{2,3})*(?:\.\d{2})?\b", content)`: scan
left to right tracking the previous character for the leading `\b`,
resuming after each non-overlapping match. -/
def findallCF : Nat → Option Char → List Char → List String
  | _, _, [] => []
  | 0, _, _ :: _ => []
  | fuel + 1, prev, c :: cs =>
    let bOK := match prev with | none => true | some p => !isWordC p
    if bOK && isDigitB c then
      match firstNumMatch (c :: cs) with
      | some m => String.mk m :: findallCF fuel (some ((m.getLast?).getD c)) (cs.drop (m.length - 1))
      | none => findallCF fuel (some c) cs
    else findallCF fuel (some c) cs

def findallC (prev : Option Char) (l : List Char) : List String := findallCF l.length prev l

/-- `float(re.sub(r"[^\d\.]", "", num_str))` scaled by 100; the findall
matches always strip to a plain digit run with an optional two-digit
decimal part, so the parse cannot fail. -/
def hundredthsOfStr (s : String) : Nat :=
  match numOKparts (stripND s) with
  | some pr => hundredthsOf pr
  | none => 0

/-- Python keeps the first element under `max`-like selection: sorting by
value descending is stable, so `candidates[0]` is the first occurrence of
the largest value. -/
def heurMax1 (cur : Nat × String) : List (Nat × String) → Nat × String
  | [] => cur
  | p :: rest => heurMax1 (if p.1 > cur.1 then p else cur) rest

/-- Lines 172-190: every comma-grouped number in the text, filtered to the
plausible income band `100000 < v < 100000000`, largest value first. -/
def maxNumHeur (t : String) : Option String :=
  let cands :=
    (findallC none t.toList).filterMap
      (fun ns =>
        let v := hundredthsOfStr ns
        if 10000000 < v ∧ v < 10000000000 then some (v, ns) else none)
  match cands with
  | [] => none
  | c :: rest => some (heurMax1 c rest).2

-- ### Form 16 employer, tax, and assembly (lines 96-209)

def f16Header (line : String) : Bool :=
  substrB "Name and address of the Employer" line ||
    substrB "Name and address of the Employer/Specified Bank" line

/-- Python str.isupper (ASCII reading): at least one letter and no
lowercase letter. -/
def isupperPy (s : String) : Bool :=
  s.toList.any isAlphaB && s.toList.all (fun c => !isaz c)

def findIdxFrom (p : String → Bool) : List String → Nat → Option Nat
  | [], _ => none
  | s :: rest, i => if p s then some i else findIdxFrom p rest (i + 1)

/-- The offset loop of lines 105-115 (offsets 1..3 from the header line;
`left` counts the offsets still allowed by `range(1, 4)`). -/
def employerGo (ls : List String) (i : Nat) : Nat → Nat → Option String
  | _, 0 => none
  | offset, left + 1 =>
    if ls.length ≤ i + offset then none
    else
      let candidate := trimS (ls.getD (i + offset) "")
      if substrB "Name and address" candidate || substrB "Employee" candidate ||
          substrB "Specified senior" candidate then
        employerGo ls i (offset + 1) left
      else
        some
          (if i + offset + 1 < ls.length then
            let next_l := trimS (ls.getD (i + offset + 1) "")
            if isupperPy next_l && (substrB "PRIVATE" next_l || substrB "LIMITED" next_l) then
              candidate ++ " " ++ next_l
            else candidate
          else candidate)

/-- Lines 100-116: only the first header line is considered. -/
def form16_employer (ls : List String) : Option String :=
  match findIdxFrom f16Header ls 0 with
  | some i => employerGo ls i 1 3
  | none => none

/-- The capture `(\d[\d,]*\.\d{2})` at the head (the decimal part is
mandatory; a shorter run cannot expose a dot, so no backtracking arises). -/
def numTax : List Char → Option (List Char)
  | [] => none
  | c :: rest =>
    if isDigitB c then
      let run := rest.takeWhile digitOrComma
      match rest.drop run.length with
      | '.' :: a :: b :: _ =>
        if isDigitB a && isDigitB b then some (c :: run ++ ['.', a, b]) else none
      | _ => none
    else none

/-- One attempt of
`(?:Net\s*tax\s*payable|Total\s*Tax\s*Payable)[\s\S]{0,100}?(\d[\d,]*\.\d{2})`
at the current position (the alternatives start with distinct words). -/
def f16TaxAt (cs : List Char) : Option (List Char) :=
  match kw3At "net" "tax" "payable" cs with
  | some n => gapSearch numTax 100 (cs.drop n)
  | none =>
    match kw3At "total" "tax" "payable" cs with
    | some n => gapSearch numTax 100 (cs.drop n)
    | none => none

def f16Tax (t : String) : Option String :=
  (scanFirst f16TaxAt t.toList).map (fun l => String.mk l)

/-- The three-tier fallback chain of lines 122-190, with Python truthiness
on the accumulating `gross` variable. -/
def form16_gross (tables : List PyTable) (content : String) : Option String :=
  let g0 := form16_tableLookup tables
  let g1 := if pyTruthyS g0 then g0 else (match bulldozer content with | some v => some v | none => g0)
  if pyTruthyS g1 then g1 else (match maxNumHeur content with | some v => some v | none => g1)

/-- src/main.py lines 96-209 (process_form16); `result.content or ""`
guards absent content, so this extractor is total. -/
def process_form16 (r : AnalyzeResult) : Except String IdentityResponse :=
  let content := contentD r
  let employer := form16_employer (allLines r)
  let gross := form16_gross r.tables content
  let w := (if !pyTruthyS gross then ["Income info not found"] else [])
      ++ (if !pyTruthyS employer then ["Employer Name not found"] else [])
  Except.ok
    { document_type := "FORM_16"
      id_number := none, full_name := none, gender := none
      date_of_birth := none, address := none
      ifsc_code := none, micr_code := none, bank_name := none
      employer_name := employer
      assessment_year := assessYear content
      gross_income := gross
      tax_paid := f16Tax content
      confidence_score := 0.9
      validation_status := if w == [] then "VALID" else "REVIEW_NEEDED"
      warnings := w }

-- ### ITR-V processor (process_itrv, lines 211-217)

/-- Greedy `(?:,\d{2,3})*` at the head (no trailing constraint follows in
the ITR-V patterns, so the first greedy parse is the match). -/
def commaGroupsF : Nat → List Char → List Char
  | 0, _ => []
  | fuel + 1, l =>
    match l with
    | ',' :: rest =>
      let ds := rest.takeWhile isDigitB
      if 2 ≤ ds.length then
        let k := min 3 ds.length
        ',' :: rest.take k ++ commaGroupsF fuel (rest.drop k)
      else []
    | _ => []

def commaGroups (l : List Char) : List Char := commaGroupsF l.length l

/-- The capture `(\d{1,3}(?:,\d{2,3})*)` at the head. -/
def numComma (cs : List Char) : Option (List Char) :=
  let ds := cs.takeWhile isDigitB
  if ds.length = 0 then none
  else
    let k := min 3 ds.length
    some (cs.take k ++ commaGroups (cs.drop k))

def itrvIncomeAt (cs : List Char) : Option (List Char) :=
  match kw3At "gross" "total" "income" cs with
  | some n => scanFirst numComma (cs.drop n)
  | none => none

/-- `re.search(r"Gross\s*Total\s*Income[\s\S]*?(\d{1,3}(?:,\d{2,3})*)", content, re.IGNORECASE)`. -/
def itrvIncome (t : String) : Option String :=
  (scanFirst itrvIncomeAt t.toList).map (fun l => String.mk l)

def itrvTaxAt (cs : List Char) : Option (List Char) :=
  match kw3At "total" "tax" "payable" cs with
  | some n => scanFirst numComma ((cs.drop n).dropWhile pyWS)
  | none =>
    if ciStarts "refund".toList cs then scanFirst numComma ((cs.drop 6).dropWhile pyWS)
    else none

/-- `re.search(r"(?:Total\s*Tax\s*Payable|Refund)\s*[\s\S]*?(\d{1,3}(?:,\d{2,3})*)", content, re.IGNORECASE)`. -/
def itrvTax (t : String) : Option String :=
  (scanFirst itrvTaxAt t.toList).map (fun l => String.mk l)

/-- src/main.py lines 211-217; `result.content or ""` guards absent
content, and the validation status is unconditionally VALID. -/
def process_itrv (r : AnalyzeResult) : Except String IdentityResponse :=
  let content := contentD r
  Except.ok
    { document_type := "ITR-V"
      id_number := panSearch content
      full_name := none, gender := none, date_of_birth := none, address := none
      ifsc_code := none, micr_code := none, bank_name := none
      employer_name := none
      assessment_year := assessYear content
      gross_income := itrvIncome content
      tax_paid := itrvTax content
      confidence_score := 0.9
      validation_status := "VALID"
      warnings := [] }

-- ### spec-side definitions (stated from the claim wording, for comparison)

/-- The marker test of the claim on the anchor refiner: the line at index
i contains a birth-date marker. -/
def markerAt (ls : List String) (i : Nat) : Bool :=
  substrB "DOB" (ls.getD i "") || substrB "Year of Birth" (ls.getD i "")

/-- The candidate the refiner considers for the marker at index i: the
stripped previous line, where index 0 wraps to the last line (Python
index -1). -/
def anchorCand (ls : List String) (i : Nat) : String :=
  trimS (ls.getD (if i == 0 then ls.length - 1 else i - 1) "")

/-- Stated from the claim wording for C7: the maximal contiguous digit
runs of the text whose length lies in 10..18, in textual order. -/
def runs1018 (t : String) : List String :=
  ((maxRuns t.toList).filter (fun r => decide (10 ≤ r.length ∧ r.length ≤ 18))).map
    (fun r => String.mk r)

/-- Stated from the claim wording for C7: the first element whose length
is at least every element's length, i.e. the first of the longest ones. -/
def firstLongestSpec (l : List String) : Option String :=
  findFirst (fun s => allB (fun r => r.length ≤ s.length) l) l

-- ### concrete inputs used by counterexamples and witnesses

def chequeR0 : AnalyzeResult :=
  { content := some "PAY TO SHRI X RUPEES ONLY SBIN0001234", pages := [], documents := [], tables := [] }

def panR0 : AnalyzeResult :=
  { content := some ""
    pages := []
    documents := [{ fields := { documentNumber := some "ABCDE1234", firstName := none,
                                lastName := none, address := none, dateOfBirth := none }
                    confidence := 9/10 }]
    tables := [] }

def panR1 : AnalyzeResult :=
  { content := some ""
    pages := []
    documents := [{ fields := { documentNumber := some "ABCDE1234F", firstName := some "RAVI",
                                lastName := some "KUMAR", address := none, dateOfBirth := none }
                    confidence := 9/10 }]
    tables := [] }

def noContentR : AnalyzeResult :=
  { content := none, pages := [], documents := [], tables := [] }

def totalR4 : AnalyzeResult :=
  { content := some "sample text", pages := [], documents := [], tables := [] }

def docX : PyDoc :=
  { fields := { documentNumber := some "X", firstName := none, lastName := none,
                address := none, dateOfBirth := none }
    confidence := 1/2 }

def docY : PyDoc :=
  { fields := { documentNumber := some "Y", firstName := none, lastName := none,
                address := none, dateOfBirth := none }
    confidence := 1/2 }

def aadR0 : AnalyzeResult :=
  { content := some "", pages := [], documents := [docX, docY], tables := [] }

def aadR8 : AnalyzeResult :=
  { content := some ""
    pages := []
    documents := [{ fields := { documentNumber := some "1234 5678 901", firstName := none,
                                lastName := none, address := none, dateOfBirth := none }
                    confidence := 1/2 }]
    tables := [] }

def r9 : AnalyzeResult :=
  { content := some ""
    pages := [{ lines := ["xx", "DOB 1", "John Smith", "DOB 2"] }]
    documents := [], tables := [] }

def r9w : AnalyzeResult :=
  { content := some ""
    pages := [{ lines := ["intro", "Ram Kumar", "DOB 1990"] }]
    documents := [], tables := [] }

def f16T0 : PyTable :=
  { rowCount := 1
    cells := [{ rowIndex := 0, columnIndex := 0, content := "Gross Salary" },
              { rowIndex := 0, columnIndex := 1, content := "650000.00" }] }

def f16R0 : AnalyzeResult :=
  { content := some "net salary 123,456", pages := [], documents := [], tables := [f16T0] }

-- ### helper lemmas

theorem dropWhile_idem (p : Char → Bool) : (l : List Char) → (l.dropWhile p).dropWhile p = l.dropWhile p
  | [] => rfl
  | c :: cs => by
      by_cases h : p c
      · rw [List.dropWhile_cons, if_pos h]
        exact dropWhile_idem p cs
      · rw [List.dropWhile_cons, if_neg h, List.dropWhile_cons, if_neg h]

theorem firstSome_prop {α β : Type} {f : α → Option β} {P : β → Prop}
    (hf : ∀ a b, f a = some b → P b) :
    ∀ l b, firstSome f l = some b → P b := by
  intro l
  induction l with
  | nil => intro b h; simp [firstSome] at h
  | cons a as ih =>
      intro b h
      simp only [firstSome] at h
      cases hfa : f a with
      | some b0 => rw [hfa] at h; cases h; exact hf a b hfa
      | none => rw [hfa] at h; exact ih b h

theorem findFirst_congr {α : Type} {p q : α → Bool} :
    ∀ l : List α, (∀ x ∈ l, p x = q x) → findFirst p l = findFirst q l := by
  intro l
  induction l with
  | nil => intro _; rfl
  | cons a as ih =>
      intro h
      have ha : p a = q a := h a (by simp)
      simp only [findFirst, ha]
      by_cases hq : q a = true
      · simp [hq]
      · simp only [Bool.not_eq_true] at hq
        simp only [hq, if_neg]
        simp only [Bool.false_eq_true, if_false]
        exact ih (fun x hx => h x (by simp [hx]))

-- ### Claim C1

/-- Claim C1 counterexample: the text "PAY RUPEES" is not matched by the
Form 16 or ITR-V rules and contains the banking keywords PAY and RUPEES
but no IFSC-shaped token, yet the classifier selects CHEQUE — so a
banking keyword alone does classify as CHEQUE, contradicting the claim. -/
theorem claim_C1_counterexample :
    classifyAuto (some "PAY RUPEES") = DocType.cheque ∧
      extract_ifsc (toUpperS "PAY RUPEES") = none := by
  constructor
  · decide
  · decide

/-- Claim C1 (amended): for every text not matched by the Form 16 or
ITR-V rules, the classifier selects CHEQUE if and only if the upper-cased
text contains the substring "PAY " (with trailing space) and the
substring "RUPEES"; no structural IFSC check is performed. -/
theorem claim_C1_amended (t : String)
    (h1 : substrB "FORM 16" (toUpperS t) = false)
    (h2 : substrB "ITR-V" (toUpperS t) = false) :
    classifyAuto (some t) = DocType.cheque ↔
      (substrB "PAY " (toUpperS t) = true ∧ substrB "RUPEES" (toUpperS t) = true) := by
  simp only [classifyAuto, Option.getD_some, h1, h2, Bool.false_eq_true, if_false]
  by_cases hp : substrB "PAY " (toUpperS t) = true <;>
    by_cases hr : substrB "RUPEES" (toUpperS t) = true <;>
      simp only [hp, hr, Bool.and_self, Bool.and_true, Bool.true_and, Bool.and_false,
        Bool.false_and, if_true, Bool.false_eq_true, if_false]
  · simp
  · constructor
    · intro h; split at h <;> simp_all
    · intro h; exact absurd h.2 (by simp [hr])
  · constructor
    · intro h; split at h <;> simp_all
    · intro h; exact absurd h.1 (by simp [hp])
  · constructor
    · intro h; split at h <;> simp_all
    · intro h; exact absurd h.1 (by simp [hp])

/-- Claim C1 witness: the amended rule evaluated on a concrete cheque-like
text. -/
theorem claim_C1_witness :
    substrB "FORM 16" (toUpperS "PAY AND RUPEES") = false ∧
      substrB "ITR-V" (toUpperS "PAY AND RUPEES") = false ∧
      (classifyAuto (some "PAY AND RUPEES") = DocType.cheque ↔
        (substrB "PAY " (toUpperS "PAY AND RUPEES") = true ∧
          substrB "RUPEES" (toUpperS "PAY AND RUPEES") = true)) :=
  ⟨by decide, by decide, claim_C1_amended "PAY AND RUPEES" (by decide) (by decide)⟩

-- ### Claim C2

/-- Claim C2 counterexample: a text containing PAY, RUPEES and
SBIN0001234 classifies as CHEQUE and extracts IFSC "SBIN0001234", but the
returned record's bank name is absent, not "State Bank of India" — no
bank-prefix table exists in process_cheque. -/
theorem claim_C2_counterexample :
    classifyAuto chequeR0.content = DocType.cheque ∧
      (okRec (process_cheque chequeR0)).map (fun rec => rec.ifsc_code) =
        some (some "SBIN0001234") ∧
      (okRec (process_cheque chequeR0)).map (fun rec => rec.bank_name) = some none ∧
      (okRec (process_cheque chequeR0)).map (fun rec => rec.bank_name) ≠
        some (some "State Bank of India") := by
  refine ⟨by decide, by decide, by decide, by decide⟩

/-- Claim C2 (amended): for every input processed as a cheque the returned
record's bank name is absent — process_cheque never resolves a bank name
(the end-to-end example still extracts IFSC "SBIN0001234", shown in the
witness and counterexample). -/
theorem claim_C2_amended (r : AnalyzeResult) (c : String) (h : r.content = some c) :
    ∃ rec, process_cheque r = Except.ok rec ∧ rec.bank_name = none := by
  simp only [process_cheque, h]
  exact ⟨_, rfl, rfl⟩

/-- Claim C2 witness: the amended statement at the end-to-end example
input. -/
theorem claim_C2_witness :
    chequeR0.content = some "PAY TO SHRI X RUPEES ONLY SBIN0001234" ∧
      (∃ rec, process_cheque chequeR0 = Except.ok rec ∧ rec.bank_name = none) :=
  ⟨rfl, claim_C2_amended chequeR0 "PAY TO SHRI X RUPEES ONLY SBIN0001234" rfl⟩

-- ### Claim C3

/-- Claim C3 counterexample: a document instance whose id "ABCDE1234"
does not match the PAN pattern (wrong length) still yields an empty
warning list and validationStatus VALID — process_pan performs no pattern
validation. -/
theorem claim_C3_counterexample :
    (okRec (process_pan panR0)).map (fun rec => rec.id_number) = some (some "ABCDE1234") ∧
      (okRec (process_pan panR0)).map (fun rec => rec.warnings) = some [] ∧
      (okRec (process_pan panR0)).map (fun rec => rec.validation_status) = some "VALID" := by
  refine ⟨by decide, by decide, by decide⟩

/-- Claim C3 (amended): the PAN extractor validates nothing: whenever a
document instance exists (and content is present), the returned record
has no warnings and validationStatus VALID, whatever the id number; in
particular an id matching the pattern produces no warning. -/
theorem claim_C3_amended (r : AnalyzeResult) (c : String) (d : PyDoc) (ds : List PyDoc)
    (hc : r.content = some c) (hd : r.documents = d :: ds) :
    ∃ rec, process_pan r = Except.ok rec ∧ rec.warnings = [] ∧
      rec.validation_status = "VALID" := by
  simp only [process_pan, hd, hc]
  exact ⟨_, rfl, rfl, rfl⟩

/-- Claim C3 witness: the amended statement on an instance whose id
matches the PAN pattern. -/
theorem claim_C3_witness :
    panR1.content = some "" ∧
      (panR1.documents.map (fun d => d.fields.documentNumber)) = [some "ABCDE1234F"] ∧
      (∃ rec, process_pan panR1 = Except.ok rec ∧ rec.warnings = [] ∧
        rec.validation_status = "VALID") := by
  refine ⟨rfl, by decide, ?_⟩
  cases hd : panR1.documents with
  | nil => exact absurd hd (by decide)
  | cons d ds => exact claim_C3_amended panR1 "" d ds rfl hd

-- ### Claim C4

/-- Claim C4 counterexample: on an input whose content is absent,
process_cheque raises a TypeError (re.search on None) instead of
returning a record — the extractors are not total on all inputs. -/
theorem claim_C4_counterexample :
    process_cheque noContentR = Except.error "TypeError" := by rfl

/-- Claim C4 (amended): every per-type extractor returns an
IdentityRecord on every input whose content is present; when content is
absent, process_cheque (and likewise process_aadhaar, and process_pan
when an instance exists) raises a TypeError rather than returning a
record. -/
theorem claim_C4_amended (r : AnalyzeResult) (c : String) (h : r.content = some c) :
    (okRec (process_pan r)).isSome = true ∧
      (okRec (process_aadhaar r)).isSome = true ∧
      (okRec (process_cheque r)).isSome = true ∧
      (okRec (process_form16 r)).isSome = true ∧
      (okRec (process_itrv r)).isSome = true := by
  refine ⟨?_, ?_, ?_, rfl, rfl⟩
  · cases hd : r.documents with
    | nil => simp [process_pan, hd, okRec]
    | cons d ds => simp [process_pan, hd, h, okRec]
  · simp [process_aadhaar, h, okRec]
  · simp [process_cheque, h, okRec]

/-- Claim C4 witness: totality of all five extractors on a concrete input
with content present. -/
theorem claim_C4_witness :
    totalR4.content = some "sample text" ∧
      ((okRec (process_pan totalR4)).isSome = true ∧
        (okRec (process_aadhaar totalR4)).isSome = true ∧
        (okRec (process_cheque totalR4)).isSome = true ∧
        (okRec (process_form16 totalR4)).isSome = true ∧
        (okRec (process_itrv totalR4)).isSome = true) :=
  ⟨rfl, claim_C4_amended totalR4 "sample text" rfl⟩

-- ### Claim C5

theorem aadhaarFold_id (ds : List PyDoc) : ∀ m : AMerged, pyTruthyS m.id = true →
    (ds.foldl aadhaarStep m).id = m.id := by
  induction ds with
  | nil => intro m _; rfl
  | cons d ds ih =>
      intro m h
      rw [List.foldl_cons]
      have hk : (aadhaarStep m d).id = m.id := by simp [aadhaarStep, h]
      rw [ih (aadhaarStep m d) (by rw [hk]; exact h), hk]

/-- Claim C5 counterexample: two instances with DocumentNumber "X" and
"Y" and confidence 1/2 each merge to id "X" (first-wins holds), but the
returned confidenceScore is 0.8, not the average 1/2 — the collected
confidences are never averaged. -/
theorem claim_C5_counterexample :
    (okRec (process_aadhaar aadR0)).map (fun rec => rec.id_number) = some (some "X") ∧
      (okRec (process_aadhaar aadR0)).map (fun rec => rec.confidence_score) ≠
        some ((1/2 + 1/2) / 2 : Rat) ∧
      (okRec (process_aadhaar aadR0)).map (fun rec => rec.confidence_score) =
        some (0.8 : Rat) := by
  have he : (okRec (process_aadhaar aadR0)).map (fun rec => rec.confidence_score) =
      some (0.8 : Rat) := rfl
  refine ⟨by rfl, ?_, he⟩
  rw [he]
  intro hcon
  have hq : (0.8 : Rat) = (1/2 + 1/2) / 2 := Option.some.inj hcon
  norm_num at hq

/-- Claim C5 (amended): the AADHAAR merge is first-wins per field — a
present non-empty DocumentNumber of the first instance is the merged id
whatever later instances carry — but the returned confidenceScore is the
constant 0.8; the per-instance confidences are collected and never used. -/
theorem claim_C5_amended (r : AnalyzeResult) (c : String) (d1 : PyDoc) (ds : List PyDoc)
    (v : String) (hc : r.content = some c) (hd : r.documents = d1 :: ds)
    (hv : d1.fields.documentNumber = some v) (hne : v ≠ "") :
    ∃ rec, process_aadhaar r = Except.ok rec ∧ rec.id_number = some v ∧
      rec.confidence_score = 0.8 := by
  have h1 : (aadhaarStep ⟨none, none, none, none, []⟩ d1).id = some v := by
    simp [aadhaarStep, pyTruthyS, hv]
  have htr : pyTruthyS (aadhaarStep ⟨none, none, none, none, []⟩ d1).id = true := by
    rw [h1]; simp [pyTruthyS, hne]
  have hid : (aadhaarMerge r.documents).id = some v := by
    rw [hd]
    show (List.foldl aadhaarStep ⟨none, none, none, none, []⟩ (d1 :: ds)).id = some v
    rw [List.foldl_cons, aadhaarFold_id ds _ htr, h1]
  simp only [process_aadhaar, hc]
  exact ⟨_, rfl, hid, rfl⟩

/-- Claim C5 witness: the amended statement on the two-instance example. -/
theorem claim_C5_witness :
    aadR0.content = some "" ∧ aadR0.documents = [docX, docY] ∧
      docX.fields.documentNumber = some "X" ∧ ("X" : String) ≠ "" ∧
      (∃ rec, process_aadhaar aadR0 = Except.ok rec ∧ rec.id_number = some "X" ∧
        rec.confidence_score = 0.8) :=
  ⟨rfl, rfl, rfl, by decide, claim_C5_amended aadR0 "" docX [docY] "X" rfl rfl rfl (by decide)⟩

-- ### Claim C8

/-- Claim C8: for every AADHAAR input with content present whose merged
id is a present (non-empty) string s: if s has 12 characters once spaces
are removed there is no length warning (and the status is VALID),
otherwise the warnings are exactly [Invalid Aadhaar Length] and the
status is REVIEW_NEEDED — not INVALID. -/
theorem claim_C8 (r : AnalyzeResult) (c s : String)
    (hc : r.content = some c) (hid : (aadhaarMerge r.documents).id = some s)
    (hs : s ≠ "") :
    ∃ rec, process_aadhaar r = Except.ok rec ∧
      (if (removeSpaces s).length = 12 then
        ("Invalid Aadhaar Length" ∉ rec.warnings ∧ rec.validation_status = "VALID")
      else
        (rec.warnings = ["Invalid Aadhaar Length"] ∧
          rec.validation_status = "REVIEW_NEEDED" ∧
          rec.validation_status ≠ "INVALID")) := by
  have hw : aadhaarWarnings (aadhaarMerge r.documents).id =
      (if (removeSpaces s).length = 12 then [] else ["Invalid Aadhaar Length"]) := by
    rw [hid]
    by_cases hl : (removeSpaces s).length = 12
    · simp [aadhaarWarnings, pyTruthyS, hl]
    · simp [aadhaarWarnings, pyTruthyS, hs, hl]
  simp only [process_aadhaar, hc]
  refine ⟨_, rfl, ?_⟩
  by_cases hl : (removeSpaces s).length = 12
  · rw [if_pos hl]
    rw [hw, if_pos hl]
    exact ⟨by simp, rfl⟩
  · rw [if_neg hl]
    rw [hw, if_neg hl]
    refine ⟨rfl, rfl, ?_⟩
    show ("REVIEW_NEEDED" : String) ≠ "INVALID"
    decide

/-- Claim C8 witness: an 11-digit id with spaces gets the length warning
and REVIEW_NEEDED status. -/
theorem claim_C8_witness :
    aadR8.content = some "" ∧
      (aadhaarMerge aadR8.documents).id = some "1234 5678 901" ∧
      ("1234 5678 901" : String) ≠ "" ∧ (removeSpaces "1234 5678 901").length ≠ 12 ∧
      (∃ rec, process_aadhaar aadR8 = Except.ok rec ∧
        (if (removeSpaces "1234 5678 901").length = 12 then
          ("Invalid Aadhaar Length" ∉ rec.warnings ∧ rec.validation_status = "VALID")
        else
          (rec.warnings = ["Invalid Aadhaar Length"] ∧
            rec.validation_status = "REVIEW_NEEDED" ∧
            rec.validation_status ≠ "INVALID"))) :=
  ⟨rfl, by decide, by decide, by decide,
    claim_C8 aadR8 "" "1234 5678 901" rfl (by decide) (by decide)⟩

-- ### Claim C6

theorem rowScan_ne_empty (t : PyTable) (ri : Nat) (v : String)
    (h : rowScan t ri = some v) : v ≠ "" := by
  unfold rowScan at h
  refine @firstSome_prop _ _ _ (fun b => b ≠ "") ?_ _ v h
  intro cell b hb
  by_cases hq : cellQualifies cell.content
  · rw [if_pos hq] at hb
    cases hb
    intro he
    rw [he] at hq
    exact absurd hq (by decide)
  · rw [if_neg hq] at hb
    cases hb

theorem tableLookup_ne_empty (ts : List PyTable) (v : String)
    (h : form16_tableLookup ts = some v) : v ≠ "" := by
  unfold form16_tableLookup at h
  refine @firstSome_prop _ _ _ (fun b => b ≠ "") ?_ ts v h
  intro t b hb
  refine @firstSome_prop _ _ _ (fun b => b ≠ "") ?_ t.cells b hb
  intro cell b2 hb2
  by_cases hk : kwMatch cell.content
  · rw [if_pos hk] at hb2
    exact rowScan_ne_empty t cell.rowIndex b2 hb2
  · rw [if_neg hk] at hb2
    cases hb2

/-- Claim C6: when the table strategy yields a value, that value is the
gross income for every possible text input — so the regex and magnitude
strategies cannot run or influence the result — and process_form16
returns it without an income warning. -/
theorem claim_C6 (r : AnalyzeResult) (v : String)
    (h : form16_tableLookup r.tables = some v) :
    (∀ c : String, form16_gross r.tables c = some v) ∧
      ∃ rec, process_form16 r = Except.ok rec ∧ rec.gross_income = some v ∧
        "Income info not found" ∉ rec.warnings := by
  have hv : v ≠ "" := tableLookup_ne_empty r.tables v h
  have hg : ∀ c, form16_gross r.tables c = some v := by
    intro c
    simp [form16_gross, h, pyTruthyS, hv]
  refine ⟨hg, ?_⟩
  simp only [process_form16]
  refine ⟨_, rfl, ?_, ?_⟩
  · exact hg (contentD r)
  · rw [hg (contentD r)]
    simp [pyTruthyS, hv]


/-- Claim C6 witness: a table with a "Gross Salary" row dominates a text
on which the regex strategy would find a different number. -/
theorem claim_C6_witness :
    form16_tableLookup f16R0.tables = some "650000.00" ∧
      bulldozer "net salary 123,456" = some "123,456" ∧
      ((∀ c : String, form16_gross f16R0.tables c = some "650000.00") ∧
        ∃ rec, process_form16 f16R0 = Except.ok rec ∧
          rec.gross_income = some "650000.00" ∧
          "Income info not found" ∉ rec.warnings) :=
  ⟨by decide, by decide, claim_C6 f16R0 "650000.00" (by decide)⟩

-- ### Claim C9

theorem refineLoopF_miss (ls : List String) (pn : String) :
    ∀ fuel k, ls.length ≤ k + fuel →
    (∀ i, k ≤ i → i < ls.length → markerAt ls i = true →
      substrIB pn (anchorCand ls i) = false) →
    refineLoopF ls pn fuel k = pn := by
  intro fuel
  induction fuel with
  | zero => intro k _ _; rfl
  | succ fuel ih =>
      intro k hle h
      show refineLoopF ls pn (fuel + 1) k = pn
      simp only [refineLoopF]
      by_cases hk : k < ls.length
      · rw [if_pos hk]
        by_cases hm : markerAt ls k = true
        · have hc : substrIB pn (anchorCand ls k) = false := h k (Nat.le_refl k) hk hm
          unfold markerAt at hm
          unfold anchorCand at hc
          rw [if_pos hm, hc]
          simp only [Bool.false_eq_true, if_false]
          exact ih (k + 1) (by omega) (fun i hi => h i (by omega))
        · unfold markerAt at hm
          rw [if_neg hm]
          exact ih (k + 1) (by omega) (fun i hi => h i (by omega))
      · rw [if_neg hk]
  
theorem refineLoopF_hit (ls : List String) (pn : String) :
    ∀ fuel k i, ls.length ≤ k + fuel → k ≤ i → i < ls.length →
    markerAt ls i = true → substrIB pn (anchorCand ls i) = true →
    (∀ j, k ≤ j → j < i → markerAt ls j = true →
      substrIB pn (anchorCand ls j) = false) →
    refineLoopF ls pn fuel k = anchorCand ls i := by
  intro fuel
  induction fuel with
  | zero => intro k i hle hki hil _ _ _; omega
  | succ fuel ih =>
      intro k i hle hki hil hmi hci hprev
      show refineLoopF ls pn (fuel + 1) k = anchorCand ls i
      simp only [refineLoopF]
      have hk : k < ls.length := Nat.lt_of_le_of_lt hki hil
      rw [if_pos hk]
      by_cases hke : k = i
      · subst hke
        have hm := hmi
        have hc := hci
        unfold markerAt at hm
        unfold anchorCand at hc
        rw [if_pos hm, hc]
        simp only [if_true]
        rfl
      · have hklt : k < i := Nat.lt_of_le_of_ne hki hke
        by_cases hmk : markerAt ls k = true
        · have hck : substrIB pn (anchorCand ls k) = false :=
            hprev k (Nat.le_refl k) hklt hmk
          unfold markerAt at hmk
          unfold anchorCand at hck
          rw [if_pos hmk, hck]
          simp only [Bool.false_eq_true, if_false]
          exact ih (k + 1) i (by omega) hklt hil hmi hci
            (fun j hj => hprev j (by omega))
        · unfold markerAt at hmk
          rw [if_neg hmk]
          exact ih (k + 1) i (by omega) hklt hil hmi hci
            (fun j hj => hprev j (by omega))

/-- Claim C9 counterexample: the first marker line is "DOB 1" at index 1
and its predecessor "xx" does not contain the partial name "John", so the
claim prescribes returning "John" unchanged; the code instead keeps
scanning, anchors on the later marker "DOB 2", and returns "John Smith". -/
theorem claim_C9_counterexample :
    markerAt (allLines r9) 1 = true ∧
      substrIB "John" (anchorCand (allLines r9) 0) = false ∧
      substrIB "John" (anchorCand (allLines r9) 1) = false ∧
      refine_name_using_anchor r9 "John" = "John Smith" ∧
      ("John Smith" : String) ≠ "John" := by
  refine ⟨by decide, by decide, by decide, by decide, by decide⟩

/-- Claim C9 (amended): the refiner scans every marker occurrence in
order: it returns the stripped line preceding the first marker whose
preceding line contains the partial name case-insensitively (a marker at
index 0 wraps to the last line as its predecessor); when no marker has a
matching preceding line, it returns the partial name unchanged. -/
theorem claim_C9_amended (r : AnalyzeResult) (pn : String) :
    ((∀ i, i < (allLines r).length → markerAt (allLines r) i = true →
        substrIB pn (anchorCand (allLines r) i) = false) →
      refine_name_using_anchor r pn = pn) ∧
    (∀ i, i < (allLines r).length → markerAt (allLines r) i = true →
      substrIB pn (anchorCand (allLines r) i) = true →
      (∀ j, j < i → markerAt (allLines r) j = true →
        substrIB pn (anchorCand (allLines r) j) = false) →
      refine_name_using_anchor r pn = anchorCand (allLines r) i) := by
  constructor
  · intro h
    exact refineLoopF_miss (allLines r) pn (allLines r).length 0 (by omega)
      (fun i _ hi hm => h i hi hm)
  · intro i hil hmi hci hprev
    exact refineLoopF_hit (allLines r) pn (allLines r).length 0 i (by omega)
      (Nat.zero_le i) hil hmi hci (fun j _ hj hm => hprev j hj hm)

/-- Claim C9 witness: the amended rule at a concrete input where the
marker "DOB 1990" at index 2 anchors on "Ram Kumar". -/
theorem claim_C9_witness :
    2 < (allLines r9w).length ∧ markerAt (allLines r9w) 2 = true ∧
      substrIB "Ram" (anchorCand (allLines r9w) 2) = true ∧
      refine_name_using_anchor r9w "Ram" = anchorCand (allLines r9w) 2 :=
  ⟨by decide, by decide, by decide,
    (claim_C9_amended r9w "Ram").2 2 (by decide) (by decide) (by decide)
      (by decide)⟩

-- ### Claims C7 and C10

theorem maxRunsF_irrel : ∀ f1 : Nat, ∀ (l : List Char) (f2 : Nat),
    l.length ≤ f1 → l.length ≤ f2 → maxRunsF f1 l = maxRunsF f2 l := by
  intro f1
  induction f1 with
  | zero =>
      intro l f2 h1 _
      have hl : l = [] := List.eq_nil_of_length_eq_zero (Nat.le_zero.mp h1)
      subst hl
      cases f2 <;> rfl
  | succ f1 ih =>
      intro l f2 h1 h2
      cases l with
      | nil => cases f2 <;> rfl
      | cons c cs =>
          cases f2 with
          | zero => simp at h2
          | succ f2 =>
              simp only [maxRunsF]
              by_cases hd : isDigitB c
              · rw [if_pos hd, if_pos hd]
                have hlen : (cs.dropWhile isDigitB).length ≤ cs.length :=
                  (List.dropWhile_sublist isDigitB).length_le
                rw [ih (cs.dropWhile isDigitB) f2 (by simp at h1; omega) (by simp at h2; omega)]
              · rw [if_neg hd, if_neg hd]
                rw [ih cs f2 (by simp at h1; omega) (by simp at h2; omega)]

theorem maxRunsF_eq_maxRuns (fuel : Nat) (l : List Char) (h : l.length ≤ fuel) :
    maxRunsF fuel l = maxRuns l :=
  maxRunsF_irrel fuel l l.length h (Nat.le_refl _)

theorem maxRuns_cons_digit (c : Char) (cs : List Char) (hd : isDigitB c = true) :
    maxRuns (c :: cs) = (c :: cs.takeWhile isDigitB) :: maxRuns (cs.dropWhile isDigitB) := by
  show maxRunsF (c :: cs).length (c :: cs) = _
  simp only [List.length_cons, maxRunsF, hd, if_true]
  rw [maxRunsF_eq_maxRuns cs.length (cs.dropWhile isDigitB)
    (List.dropWhile_sublist isDigitB).length_le]

theorem maxRuns_cons_nondigit (c : Char) (cs : List Char) (hd : ¬ isDigitB c = true) :
    maxRuns (c :: cs) = maxRuns cs := by
  show maxRunsF (c :: cs).length (c :: cs) = _
  simp only [List.length_cons, maxRunsF, hd, if_false]
  exact maxRunsF_eq_maxRuns cs.length cs (Nat.le_refl _)

theorem scanLongF_irrel : ∀ f1 : Nat, ∀ (b : Bool) (l : List Char) (f2 : Nat),
    l.length ≤ f1 → l.length ≤ f2 → scanLongF f1 b l = scanLongF f2 b l := by
  intro f1
  induction f1 with
  | zero =>
      intro b l f2 h1 _
      have hl : l = [] := List.eq_nil_of_length_eq_zero (Nat.le_zero.mp h1)
      subst hl
      cases f2 <;> rfl
  | succ f1 ih =>
      intro b l f2 h1 h2
      cases l with
      | nil => cases f2 <;> rfl
      | cons c cs =>
          cases f2 with
          | zero => simp at h2
          | succ f2 =>
              simp only [scanLongF]
              have hcs1 : cs.length ≤ f1 := by simp at h1; omega
              have hcs2 : cs.length ≤ f2 := by simp at h2; omega
              have hdw1 : (cs.dropWhile isDigitB).length ≤ f1 :=
                Nat.le_trans (List.dropWhile_sublist isDigitB).length_le hcs1
              have hdw2 : (cs.dropWhile isDigitB).length ≤ f2 :=
                Nat.le_trans (List.dropWhile_sublist isDigitB).length_le hcs2
              by_cases hd : isDigitB c
              · rw [if_pos hd, if_pos hd]
                cases b with
                | true => exact ih true cs f2 hcs1 hcs2
                | false =>
                    simp only [Bool.false_eq_true, if_false]
                    by_cases hlen : 10 ≤ (c :: cs.takeWhile isDigitB).length ∧
                        (c :: cs.takeWhile isDigitB).length ≤ 18
                    · rw [if_pos hlen, if_pos hlen,
                        ih true (cs.dropWhile isDigitB) f2 hdw1 hdw2]
                    · rw [if_neg hlen, if_neg hlen, ih true cs f2 hcs1 hcs2]
              · rw [if_neg hd, if_neg hd]
                exact ih false cs f2 hcs1 hcs2

theorem scanLongF_true_eq : ∀ fuel : Nat, ∀ l : List Char, l.length ≤ fuel →
    scanLongF fuel true l = scanLongF fuel false (l.dropWhile isDigitB) := by
  intro fuel
  induction fuel with
  | zero =>
      intro l h1
      have hl : l = [] := List.eq_nil_of_length_eq_zero (Nat.le_zero.mp h1)
      subst hl
      rfl
  | succ fuel ih =>
      intro l h1
      cases l with
      | nil => rfl
      | cons c cs =>
          have hcs : cs.length ≤ fuel := by simp at h1; omega
          by_cases hd : isDigitB c
          · rw [List.dropWhile_cons, if_pos hd]
            show scanLongF (fuel + 1) true (c :: cs) = _
            simp only [scanLongF, hd, if_true]
            rw [ih cs hcs]
            exact scanLongF_irrel fuel false (cs.dropWhile isDigitB) (fuel + 1)
              (Nat.le_trans (List.dropWhile_sublist isDigitB).length_le hcs)
              (Nat.le_trans (List.dropWhile_sublist isDigitB).length_le (by omega))
          · rw [List.dropWhile_cons, if_neg hd]
            show scanLongF (fuel + 1) true (c :: cs) = scanLongF (fuel + 1) false (c :: cs)
            simp only [scanLongF]
            rw [if_neg hd, if_neg hd]

theorem scanLongF_false_eq : ∀ fuel : Nat, ∀ l : List Char, l.length ≤ fuel →
    scanLongF fuel false l =
      ((maxRuns l).filter (fun r => decide (10 ≤ r.length ∧ r.length ≤ 18))).map
        (fun r => String.mk r) := by
  intro fuel
  induction fuel with
  | zero =>
      intro l h1
      have hl : l = [] := List.eq_nil_of_length_eq_zero (Nat.le_zero.mp h1)
      subst hl
      rfl
  | succ fuel ih =>
      intro l h1
      cases l with
      | nil => rfl
      | cons c cs =>
          have hcs : cs.length ≤ fuel := by simp at h1; omega
          have hdw : (cs.dropWhile isDigitB).length ≤ fuel :=
            Nat.le_trans (List.dropWhile_sublist isDigitB).length_le hcs
          by_cases hd : isDigitB c
          · rw [maxRuns_cons_digit c cs hd]
            show scanLongF (fuel + 1) false (c :: cs) = _
            simp only [scanLongF, hd, if_true, Bool.false_eq_true, if_false]
            by_cases hlen : 10 ≤ (c :: cs.takeWhile isDigitB).length ∧
                (c :: cs.takeWhile isDigitB).length ≤ 18
            · rw [if_pos hlen]
              rw [List.filter_cons_of_pos (by exact decide_eq_true hlen)]
              rw [List.map_cons]
              rw [scanLongF_true_eq fuel (cs.dropWhile isDigitB) hdw, dropWhile_idem,
                ih (cs.dropWhile isDigitB) hdw]
            · rw [if_neg hlen]
              rw [List.filter_cons_of_neg (by simpa using hlen)]
              rw [scanLongF_true_eq fuel cs hcs, ih (cs.dropWhile isDigitB) hdw]
          · rw [maxRuns_cons_nondigit c cs hd]
            show scanLongF (fuel + 1) false (c :: cs) = _
            simp only [scanLongF, hd, if_false]
            exact ih cs hcs

theorem scanLong_false_eq (l : List Char) :
    scanLong false l =
      ((maxRuns l).filter (fun r => decide (10 ≤ r.length ∧ r.length ≤ 18))).map
        (fun r => String.mk r) :=
  scanLongF_false_eq l.length l (Nat.le_refl _)

theorem allB_iff (p : α → Bool) : ∀ l : List α, allB p l = true ↔ ∀ x ∈ l, p x = true := by
  intro l
  induction l with
  | nil => simp [allB]
  | cons a as ih => simp [allB, ih]

theorem pyMax1_eq (rest : List String) : ∀ cur : String,
    some (pyMax1 cur rest) =
      findFirst (fun s => allB (fun r => r.length ≤ s.length) (cur :: rest)) (cur :: rest) := by
  induction rest with
  | nil =>
      intro cur
      simp [pyMax1, findFirst, allB]
  | cons s rs ih =>
      intro cur
      by_cases hs : s.length > cur.length
      · have hL : pyMax1 cur (s :: rs) = pyMax1 s rs := by
          show pyMax1 (if s.length > cur.length then s else cur) rs = pyMax1 s rs
          rw [if_pos hs]
        rw [hL]
        conv_rhs => rw [findFirst]
        rw [if_neg (by simp [allB]; intro _; omega)]
        have hcong : ∀ x ∈ s :: rs,
            (allB (fun r => decide (r.length ≤ x.length)) (cur :: s :: rs)) =
              (allB (fun r => decide (r.length ≤ x.length)) (s :: rs)) := by
          intro x _
          show (decide (cur.length ≤ x.length) &&
            allB (fun r => decide (r.length ≤ x.length)) (s :: rs)) = _
          cases hQ : allB (fun r => decide (r.length ≤ x.length)) (s :: rs) with
          | true =>
              have hsx : s.length ≤ x.length := by
                have := (allB_iff _ (s :: rs)).mp hQ s (by simp)
                simpa using this
              have : decide (cur.length ≤ x.length) = true := by simp; omega
              rw [this, Bool.true_and]
          | false => rw [Bool.and_false]
        rw [findFirst_congr (s :: rs) hcong]
        exact ih s
      · have hL : pyMax1 cur (s :: rs) = pyMax1 cur rs := by
          show pyMax1 (if s.length > cur.length then s else cur) rs = pyMax1 cur rs
          rw [if_neg hs]
        rw [hL, ih cur]
        have hsc : s.length ≤ cur.length := by omega
        have hRP : (allB (fun r => decide (r.length ≤ cur.length)) (cur :: s :: rs)) =
            (allB (fun r => decide (r.length ≤ cur.length)) (cur :: rs)) := by
          show (decide (cur.length ≤ cur.length) && (decide (s.length ≤ cur.length) &&
            allB (fun r => decide (r.length ≤ cur.length)) rs)) = _
          have h1 : decide (s.length ≤ cur.length) = true := by simp; omega
          rw [h1, Bool.true_and]
          rfl
        conv_lhs => rw [findFirst]
        conv_rhs => rw [findFirst]
        rw [hRP]
        by_cases hRc : allB (fun r => decide (r.length ≤ cur.length)) (cur :: rs) = true
        · rw [if_pos hRc, if_pos hRc]
        · rw [if_neg hRc, if_neg hRc]
          conv_rhs => rw [findFirst]
          have hPs : (allB (fun r => decide (r.length ≤ s.length)) (cur :: s :: rs)) = false := by
            cases hps : allB (fun r => decide (r.length ≤ s.length)) (cur :: s :: rs) with
            | false => rfl
            | true =>
                exfalso
                apply hRc
                rw [allB_iff] at hps ⊢
                intro x hx
                rcases List.mem_cons.mp hx with hx0 | hx1
                · subst hx0; simp
                · have := hps x (by simp [hx1])
                  have hxs : x.length ≤ s.length := by simpa using this
                  simp
                  omega
          rw [hPs]
          simp only [Bool.false_eq_true, if_false]
          have hcong2 : ∀ x ∈ rs,
              (allB (fun r => decide (r.length ≤ x.length)) (cur :: rs)) =
                (allB (fun r => decide (r.length ≤ x.length)) (cur :: s :: rs)) := by
            intro x _
            show (decide (cur.length ≤ x.length) &&
                allB (fun r => decide (r.length ≤ x.length)) rs) =
              (decide (cur.length ≤ x.length) && (decide (s.length ≤ x.length) &&
                allB (fun r => decide (r.length ≤ x.length)) rs))
            cases hcx : decide (cur.length ≤ x.length) with
            | false => rw [Bool.false_and, Bool.false_and]
            | true =>
                have hcx' : cur.length ≤ x.length := of_decide_eq_true hcx
                have : decide (s.length ≤ x.length) = true := by simp; omega
                rw [this, Bool.true_and, Bool.true_and]
          rw [findFirst_congr rs hcong2]

theorem pyMax_eq (l : List String) : pyMaxByLen l = firstLongestSpec l := by
  cases l with
  | nil => rfl
  | cons s rest => exact pyMax1_eq rest s

/-- Claim C7: with no labeled account-number match, the account number is
the first longest maximal digit run of length 10..18 of the text (the
refinement of the findall-based fallback against the claim wording). -/
theorem claim_C7 (t : String) (h : labeledAccount t.toList = none) :
    extract_account_number t = firstLongestSpec (runs1018 t) := by
  unfold extract_account_number
  rw [h]
  show pyMaxByLen (scanLong false t.toList) = _
  rw [scanLong_false_eq, pyMax_eq]
  rfl

/-- Claim C7 witness: a text with a 13-digit and an 11-digit run and no
labeled account field yields the 13-digit value. -/
theorem claim_C7_witness :
    labeledAccount ("CHQ 1234567890123 AND 98765432109" : String).toList = none ∧
      extract_account_number "CHQ 1234567890123 AND 98765432109" =
        firstLongestSpec (runs1018 "CHQ 1234567890123 AND 98765432109") ∧
      firstLongestSpec (runs1018 "CHQ 1234567890123 AND 98765432109") =
        some "1234567890123" :=
  ⟨by decide, claim_C7 "CHQ 1234567890123 AND 98765432109" (by decide), by decide⟩

/-- Claim C10: with no labeled match, when every maximal digit run has
length at least 19 the fallback returns no value at all — an over-long
run is skipped entirely, never truncated. -/
theorem claim_C10 (t : String) (h1 : labeledAccount t.toList = none)
    (h2 : ∀ r ∈ maxRuns t.toList, 19 ≤ r.length) :
    extract_account_number t = none := by
  unfold extract_account_number
  rw [h1]
  show pyMaxByLen (scanLong false t.toList) = none
  rw [scanLong_false_eq]
  have hf : (maxRuns t.toList).filter (fun r => decide (10 ≤ r.length ∧ r.length ≤ 18)) = [] := by
    rw [List.filter_eq_nil_iff]
    intro a ha
    have := h2 a ha
    simp
    omega
  rw [hf]
  rfl

/-- Claim C10 witness: a 19-digit run with no labeled match yields none. -/
theorem claim_C10_witness :
    labeledAccount ("REF 1234567890123456789 END" : String).toList = none ∧
      (∀ r ∈ maxRuns ("REF 1234567890123456789 END" : String).toList, 19 ≤ r.length) ∧
      extract_account_number "REF 1234567890123456789 END" = none :=
  ⟨by decide, by decide,
    claim_C10 "REF 1234567890123456789 END" (by decide) (by decide)⟩
